import Mathlib

/-!
Verification of the `english-handwritten` batch document extractor
(`data/extractor.py`): a shallow embedding of the JSON-from-text
extractor, the SQLite record writer and the batch driver, together with
theorems settling the specification's claims about them.

Python values coming out of `json.loads` are modelled by the inductive
type `Json`; numbers keep their source lexeme so no floating-point
semantics is needed.  Machinery that touches the outside world (the
HTTP call, the image file, the database connection, wall-clock time) is
modelled by an explicit environment `Env` passed to `extract_document`.
-/

set_option maxHeartbeats 1000000

/-- Parsed JSON / Python value universe: null, booleans, numbers
(kept as their source lexeme), strings, arrays and objects
(association lists in insertion order, later duplicate keys having
replaced earlier values in place, as for a Python dict). -/
inductive Json where
  | null : Json
  | bool : Bool → Json
  | num : String → Json
  | str : String → Json
  | arr : List Json → Json
  | obj : List (String × Json) → Json
  deriving Repr

/-- First binding of a key in an association list. -/
def lookupKey (k : String) : List (String × Json) → Option Json
  | [] => none
  | (k', v) :: rest => if k' = k then some v else lookupKey k rest

/-- Python `d[k]` lookup on a parsed object; `none` when the key is
absent or the value is not a dict. -/
def Json.getKey? (j : Json) (k : String) : Option Json :=
  match j with
  | Json.obj kvs => lookupKey k kvs
  | _ => none

/-- Python `d.get(k)`: the stored value, or Python `None` (modelled as
`Json.null`) when the key is absent. -/
def Json.pyGet (j : Json) (k : String) : Json :=
  (j.getKey? k).getD Json.null

/-- Python dict assignment `d[k] = v` on an association list: replace
the value in place when the key is present, append otherwise. -/
def setKey (k : String) (v : Json) : List (String × Json) → List (String × Json)
  | [] => [(k, v)]
  | (k', v') :: rest =>
      if k' = k then (k', v) :: rest else (k', v') :: setKey k v rest

/-- Dict assignment lifted to `Json` (identity on non-objects never
arises on the paths that use it). -/
def Json.setIn (j : Json) (k : String) (v : Json) : Json :=
  match j with
  | Json.obj kvs => Json.obj (setKey k v kvs)
  | other => other

/-- Whether a value is a Python dict (a JSON object). -/
def Json.isObj : Json → Bool
  | Json.obj _ => true
  | _ => false

/-- All-zero mantissa test used for Python number truthiness: a JSON
number is falsy exactly when its mantissa digits are all `0`. -/
def zeroLexeme (s : String) : Bool :=
  let noSign := match s.data with
    | '-' :: rest => rest
    | other => other
  (noSign.takeWhile (fun c => c ≠ 'e' ∧ c ≠ 'E')).all (fun c => c = '0' ∨ c = '.')

/-- Python truthiness of a parsed JSON value: `None`, `False`, zero
numbers, and empty strings / lists / dicts are falsy. -/
def Json.pyTruthy : Json → Bool
  | Json.null => false
  | Json.bool b => b
  | Json.num lex => ¬ zeroLexeme lex
  | Json.str s => !s.data.isEmpty
  | Json.arr xs => !xs.isEmpty
  | Json.obj kvs => !kvs.isEmpty

/-- Truthiness of `d.get(k)`'s result (`None` when absent). -/
def pyTruthyOpt : Option Json → Bool
  | none => false
  | some v => v.pyTruthy

/-- Python iteration `for x in v`: lists yield items, strings yield
one-character strings, dicts yield their keys; other values are not
iterable. -/
def Json.pyIter : Json → Option (List Json)
  | Json.arr xs => some xs
  | Json.str s => some (s.toList.map (fun c => Json.str (String.singleton c)))
  | Json.obj kvs => some (kvs.map (fun kv => Json.str kv.1))
  | _ => none

/-! ## Character classes -/

/-- Whitespace skipped by Python's JSON scanner: space, tab, newline,
carriage return. -/
def jsonWs (c : Char) : Bool :=
  c = ' ' ∨ c = '\t' ∨ c = '\n' ∨ c = '\r'

/-- Whitespace stripped by Python `str.strip()` / matched by the regex
class `\s` (ASCII range). -/
def pyWs (c : Char) : Bool :=
  c = ' ' ∨ c = '\t' ∨ c = '\n' ∨ c = '\r' ∨ c = '\x0b' ∨ c = '\x0c'

/-- Decimal digit test. -/
def isDig (c : Char) : Bool := '0' ≤ c ∧ c ≤ '9'

/-- Hexadecimal digit value, if any. -/
def hexVal (c : Char) : Option Nat :=
  if '0' ≤ c ∧ c ≤ '9' then some (c.toNat - '0'.toNat)
  else if 'a' ≤ c ∧ c ≤ 'f' then some (c.toNat - 'a'.toNat + 10)
  else if 'A' ≤ c ∧ c ≤ 'F' then some (c.toNat - 'A'.toNat + 10)
  else none

/-! ## The JSON parser (model of Python `json.loads`) -/

/-- String body parser, entered after the opening quote: handles the
JSON escapes and rejects raw control characters, as Python's strict
decoder does.  Returns the decoded string and the rest of the input. -/
def pStr : List Char → List Char → Option (String × List Char)
  | acc, '"' :: rest => some (String.mk acc.reverse, rest)
  | acc, '\\' :: e :: rest =>
      match e with
      | '"' => pStr ('"' :: acc) rest
      | '\\' => pStr ('\\' :: acc) rest
      | '/' => pStr ('/' :: acc) rest
      | 'b' => pStr ('\x08' :: acc) rest
      | 'f' => pStr ('\x0c' :: acc) rest
      | 'n' => pStr ('\n' :: acc) rest
      | 'r' => pStr ('\r' :: acc) rest
      | 't' => pStr ('\t' :: acc) rest
      | 'u' =>
          match rest with
          | h1 :: h2 :: h3 :: h4 :: rest' =>
              match hexVal h1, hexVal h2, hexVal h3, hexVal h4 with
              | some a, some b, some c, some d =>
                  let n := ((a * 16 + b) * 16 + c) * 16 + d
                  if h : n.isValidChar then pStr (Char.ofNatAux n h :: acc) rest'
                  else none
              | _, _, _, _ => none
          | _ => none
      | _ => none
  | acc, c :: rest => if c.toNat < 32 then none else pStr (c :: acc) rest
  | _, [] => none

/-- Number lexeme parser per the JSON grammar (`-? int frac? exp?`),
returning the lexeme as written.  `sign` carries an already-consumed
leading minus. -/
def pNum (sign : Bool) (cs : List Char) : Option (String × List Char) :=
  let intPart : Option (List Char × List Char) :=
    match cs with
    | '0' :: rest => some (['0'], rest)
    | c :: rest =>
        if isDig c ∧ c ≠ '0' then
          some (c :: rest.takeWhile isDig, rest.dropWhile isDig)
        else none
    | [] => none
  match intPart with
  | none => none
  | some (ip, rest1) =>
    let fracPart : Option (List Char × List Char) :=
      match rest1 with
      | '.' :: d :: rest2 =>
          if isDig d then some ('.' :: d :: rest2.takeWhile isDig, rest2.dropWhile isDig)
          else none
      | _ => some ([], rest1)
    match fracPart with
    | none => none
    | some (fp, rest2) =>
      let expPart : Option (List Char × List Char) :=
        match rest2 with
        | e :: rest3 =>
            if e = 'e' ∨ e = 'E' then
              match rest3 with
              | s :: d :: rest4 =>
                  if (s = '+' ∨ s = '-') ∧ isDig d then
                    some (e :: s :: d :: rest4.takeWhile isDig, rest4.dropWhile isDig)
                  else if isDig s then
                    some (e :: s :: (d :: rest4).takeWhile isDig, (d :: rest4).dropWhile isDig)
                  else none
              | [d] =>
                  if isDig d then some ([e, d], []) else none
              | [] => none
            else some ([], rest2)
        | [] => some ([], rest2)
      match expPart with
      | none => none
      | some (ep, rest3) =>
          let lex := (if sign then ['-'] else []) ++ ip ++ fp ++ ep
          some (String.mk lex, rest3)

mutual

/-- Parse one JSON value after skipping leading whitespace; mirrors
Python's scanner, including the non-standard `NaN` / `Infinity` /
`-Infinity` literals it accepts by default. -/
def pVal : Nat → List Char → Option (Json × List Char)
  | 0, _ => none
  | fuel + 1, cs =>
    match cs.dropWhile jsonWs with
    | [] => none
    | '"' :: rest =>
        match pStr [] rest with
        | some (s, rest') => some (Json.str s, rest')
        | none => none
    | '[' :: rest => pArr fuel rest
    | 't' :: 'r' :: 'u' :: 'e' :: rest => some (Json.bool true, rest)
    | 'f' :: 'a' :: 'l' :: 's' :: 'e' :: rest => some (Json.bool false, rest)
    | 'n' :: 'u' :: 'l' :: 'l' :: rest => some (Json.null, rest)
    | 'N' :: 'a' :: 'N' :: rest => some (Json.num "NaN", rest)
    | 'I' :: 'n' :: 'f' :: 'i' :: 'n' :: 'i' :: 't' :: 'y' :: rest =>
        some (Json.num "Infinity", rest)
    | '-' :: 'I' :: 'n' :: 'f' :: 'i' :: 'n' :: 'i' :: 't' :: 'y' :: rest =>
        some (Json.num "-Infinity", rest)
    | '-' :: rest =>
        match pNum true rest with
        | some (lex, rest') => some (Json.num lex, rest')
        | none => none
    | c :: rest =>
        if c = Char.ofNat 123 then pObj fuel rest
        else
          match pNum false (c :: rest) with
          | some (lex, rest') => some (Json.num lex, rest')
          | none => none

/-- Parse an object body after the opening brace. -/
def pObj : Nat → List Char → Option (Json × List Char)
  | 0, _ => none
  | fuel + 1, cs =>
    match cs.dropWhile jsonWs with
    | c :: rest =>
        if c = Char.ofNat 125 then some (Json.obj [], rest)
        else pMembers fuel (c :: rest) []
    | [] => none

/-- Parse the members of a non-empty object: a quoted key, a colon, a
value, then a comma (more members) or a closing brace. -/
def pMembers : Nat → List Char → List (String × Json) → Option (Json × List Char)
  | 0, _, _ => none
  | fuel + 1, cs, acc =>
    match cs.dropWhile jsonWs with
    | '"' :: rest =>
        match pStr [] rest with
        | none => none
        | some (k, rest1) =>
          match rest1.dropWhile jsonWs with
          | ':' :: rest2 =>
              match pVal fuel rest2 with
              | none => none
              | some (v, rest3) =>
                let acc' := setKey k v acc
                match rest3.dropWhile jsonWs with
                | ',' :: rest4 => pMembers fuel rest4 acc'
                | c :: rest4 =>
                    if c = Char.ofNat 125 then some (Json.obj acc', rest4) else none
                | [] => none
          | _ => none
    | _ => none

/-- Parse an array body after the opening bracket. -/
def pArr : Nat → List Char → Option (Json × List Char)
  | 0, _ => none
  | fuel + 1, cs =>
    match cs.dropWhile jsonWs with
    | ']' :: rest => some (Json.arr [], rest)
    | rest => pElems fuel rest []

/-- Parse the elements of a non-empty array. -/
def pElems : Nat → List Char → List Json → Option (Json × List Char)
  | 0, _, _ => none
  | fuel + 1, cs, acc =>
    match pVal fuel cs with
    | none => none
    | some (v, rest) =>
      match rest.dropWhile jsonWs with
      | ',' :: rest' => pElems fuel rest' (v :: acc)
      | ']' :: rest' => some (Json.arr (v :: acc).reverse, rest')
      | _ => none

end

/-- Model of Python `json.loads` on a character list: parse one value
and require only whitespace to remain (otherwise Python raises
`Extra data`, i.e. the call fails). -/
def json_loadsL (cs : List Char) : Option Json :=
  match pVal (2 * cs.length + 8) cs with
  | some (j, rest) => if rest.dropWhile jsonWs = [] then some j else none
  | none => none

/-- Model of Python `json.loads` on a string. -/
def json_loads (s : String) : Option Json :=
  json_loadsL s.toList

/-! ## The response extractor (model of `extract_json_from_response`) -/

/-- Python `str.strip()` on a character list (ASCII whitespace). -/
def pyStrip (cs : List Char) : List Char :=
  ((cs.dropWhile pyWs).reverse.dropWhile pyWs).reverse

/-- Python `s.split('\n')` on a character list. -/
def splitNl (cs : List Char) : List (List Char) :=
  match cs with
  | [] => [[]]
  | c :: rest =>
      let tail := splitNl rest
      if c = '\n' then [] :: tail
      else (c :: tail.headD []) :: tail.tail

/-- Python `'\n'.join(lines)` on character lists. -/
def joinNl : List (List Char) → List Char
  | [] => []
  | [l] => l
  | l :: rest => l ++ '\n' :: joinNl rest

/-- The opening brace character, `Char.ofNat 123`. -/
def braceL : Char := Char.ofNat 123

/-- The closing brace character, `Char.ofNat 125`. -/
def braceR : Char := Char.ofNat 125

/-- The backquote character, `Char.ofNat 96`. -/
def btick : Char := Char.ofNat 96

/-- Test for `line.strip().startswith('\x7b')`. -/
def lineStartsBrace (l : List Char) : Bool :=
  match pyStrip l with
  | c :: _ => c = braceL
  | [] => false

/-- Test for `line.strip().endswith('\x7d')`. -/
def lineEndsBrace (l : List Char) : Bool :=
  match (pyStrip l).reverse with
  | c :: _ => c = braceR
  | [] => false

/-- Case-insensitive match of the literal `json` tag right after the
opening fence, dropping it when present (the regex `(?:json)?` under
`re.IGNORECASE`). -/
def dropJsonTag (cs : List Char) : List Char :=
  match cs with
  | a :: b :: c :: d :: rest =>
      if a.toLower = 'j' ∧ b.toLower = 's' ∧ c.toLower = 'o' ∧ d.toLower = 'n' then rest
      else cs
  | _ => cs

/-- Whether the closing side of the fenced-block pattern (`\s*` then
three backquotes) matches here. -/
def fenceCloses (cs : List Char) : Bool :=
  match cs.dropWhile pyWs with
  | a :: b :: c :: _ => a = btick ∧ b = btick ∧ c = btick
  | _ => false

/-- Lazy scan for the capture's closing brace: the regex `\x7b.*?\x7d`
followed by `\s*` and the closing fence takes the first closing brace
whose suffix completes the pattern; braces that do not are consumed
by the lazy dot. -/
def findClose : List Char → List Char → Option (List Char)
  | [], _ => none
  | c :: rest, acc =>
      if c = braceR ∧ fenceCloses rest then
        some (braceL :: acc.reverse ++ [braceR])
      else findClose rest (c :: acc)

/-- Attempt to match the fenced-block regex at this position: three
backquotes, an optional `json` tag, whitespace, then the brace-to-brace
capture and the closing fence. -/
def fenceTryAt (cs : List Char) : Option (List Char) :=
  match cs with
  | a :: b :: c :: rest =>
      if a = btick ∧ b = btick ∧ c = btick then
        match (dropJsonTag rest).dropWhile pyWs with
        | d :: body => if d = braceL then findClose body [] else none
        | [] => none
      else none
  | _ => none

/-- Model of `re.search` with the pattern used by the extractor: the
leftmost start position at which the pattern matches, returning the
capture group. -/
def fenceSearch : List Char → Option (List Char)
  | [] => none
  | cs@(_ :: rest) =>
      match fenceTryAt cs with
      | some g => some g
      | none => fenceSearch rest

/-- Index of the first element satisfying `p`. -/
def scanIdx (p : List Char → Bool) : List (List Char) → Option Nat
  | [] => none
  | l :: rest => if p l then some 0 else (scanIdx p rest).map (· + 1)

/-- The line list the third tier works on:
`content.strip().split('\n')`. -/
def tier3Lines (cs : List Char) : List (List Char) :=
  splitNl (pyStrip cs)

/-- Index of the first line whose stripped form starts with an opening
brace (the extractor's top-down scan for `json_start`). -/
def firstBraceIdx (lines : List (List Char)) : Option Nat :=
  scanIdx lineStartsBrace lines

/-- Index of the last line whose stripped form ends with a closing
brace (the extractor's bottom-up scan for `json_end`). -/
def lastBraceIdx (lines : List (List Char)) : Option Nat :=
  match scanIdx lineEndsBrace lines.reverse with
  | some r => some (lines.length - 1 - r)
  | none => none

/-- Third fallback tier: split the stripped text into lines, locate the
first brace-opening and last brace-closing lines, join that inclusive
range and parse it. -/
def lineRangeTier (cs : List Char) : Option Json :=
  let lines := tier3Lines cs
  match firstBraceIdx lines, lastBraceIdx lines with
  | some s, some e => json_loadsL (joinNl ((lines.drop s).take (e + 1 - s)))
  | _, _ => none

/-- Model of `extract_json_from_response` (`extractor.py` lines 20-60):
direct parse of the stripped text, then the fenced-code-block regex,
then the line-range scan; `none` when all three tiers fail. -/
def extractL (cs : List Char) : Option Json :=
  match json_loadsL (pyStrip cs) with
  | some j => some j
  | none =>
      match fenceSearch cs with
      | some g =>
          match json_loadsL g with
          | some j => some j
          | none => lineRangeTier cs
      | none => lineRangeTier cs

/-- String-level wrapper for `extract_json_from_response`. -/
def extract_json_from_response (content : String) : Option Json :=
  extractL content.toList

/-! ## Database model and record writer -/

/-- One row of the `documents` table (`id` is the autoincrement key;
the system never deletes rows, so the next id is one past the count). -/
structure DocRow where
  id : Nat
  document_type : Json
  year : Json
  office_location : Json
  confidence : Json
  extraction_notes : Json
  source_path : String

/-- One row of the `index1_entries` table. -/
structure Index1Row where
  document_id : Nat
  serial_number : Json
  name_of_person : Json
  family_details : Json
  police_station : Json
  religion : Json
  occupation : Json
  interest_of_person : Json
  where_registered : Json
  book_1_volume : Json
  book_2_page : Json

/-- One row of the `index2_entries` table. -/
structure Index2Row where
  document_id : Nat
  serial_number : Json
  property_name : Json
  pargana_town_thana : Json
  location : Json
  nature_of_transaction : Json
  where_registered : Json
  book_1_volume : Json
  book_1_page : Json

/-- The SQLite database (`init_db.py` schema), as visible committed
state. -/
structure DB where
  documents : List DocRow
  index1_entries : List Index1Row
  index2_entries : List Index2Row

/-- The document-insert parameter tuple (`extractor.py` lines 347-350):
top-level fields read with `.get`, the source path taken from the
function argument. -/
def mkDocRow (docId : Nat) (jd : Json) (image_path : String) : DocRow :=
  ⟨docId, jd.pyGet "document_type", jd.pyGet "year", jd.pyGet "office_location",
   jd.pyGet "confidence", jd.pyGet "extraction_notes", image_path⟩

/-- The kind-A entry-insert parameter tuple (`extractor.py` line 359). -/
def mkIndex1Row (docId : Nat) (e : Json) : Index1Row :=
  ⟨docId, e.pyGet "serial_number", e.pyGet "name_of_person", e.pyGet "family_details",
   e.pyGet "police_station", e.pyGet "religion", e.pyGet "occupation",
   e.pyGet "interest_of_person", e.pyGet "where_registered",
   e.pyGet "book_1_volume", e.pyGet "book_2_page"⟩

/-- The kind-B entry-insert parameter tuple (`extractor.py` line 364),
reading the location field under its literal slash-bearing name. -/
def mkIndex2Row (docId : Nat) (e : Json) : Index2Row :=
  ⟨docId, e.pyGet "serial_number", e.pyGet "property_name", e.pyGet "Pargana/Town/Thana",
   e.pyGet "location", e.pyGet "nature_of_transaction", e.pyGet "where_registered",
   e.pyGet "book_1_volume", e.pyGet "book_1_page"⟩

/-- Walk the entries as the insert loop does, reporting the first
exception: an `AttributeError` when an item is not a dict (its `.get`
calls are evaluated before the insert), or a simulated insert failure
at position `n` per the environment's `dbFailAt`.  Attempt `0` is the
document insert, attempt `k` the `k`-th entry insert. -/
def entryLoop (dbFailAt : Option Nat) : List Json → Nat → Option String
  | [], _ => none
  | e :: es, n =>
      if e.isObj then
        if dbFailAt = some n then some "database insert failed"
        else entryLoop dbFailAt es (n + 1)
      else some "AttributeError: get"

/-- The record writer (`extractor.py` lines 342-374): insert one
document row, then one entry row per item of `entries`, then commit.
Any exception before the commit leaves the database unchanged (the
connection is abandoned without commit) and is reported as the
`database_error` message; the table shape follows `index_type`. -/
def persist (dbFailAt : Option Nat) (jd : Json) (index_type image_path : String)
    (db : DB) : DB × Option String :=
  if dbFailAt = some 0 then (db, some "database insert failed")
  else
    match ((jd.getKey? "entries").getD (Json.arr [])).pyIter with
    | none => (db, some "TypeError: not iterable")
    | some items =>
      match entryLoop dbFailAt items 1 with
      | some msg => (db, some msg)
      | none =>
          if index_type = "INDEX_1" then
            (⟨db.documents ++ [mkDocRow (db.documents.length + 1) jd image_path],
              db.index1_entries ++ items.map (mkIndex1Row (db.documents.length + 1)),
              db.index2_entries⟩, none)
          else
            (⟨db.documents ++ [mkDocRow (db.documents.length + 1) jd image_path],
              db.index1_entries,
              db.index2_entries ++ items.map (mkIndex2Row (db.documents.length + 1))⟩, none)

/-! ## The per-document pipeline (model of `extract_document`) -/

/-- Outcome of the HTTP round trip to the inference endpoint: a
transport-level exception, a response without usable `choices`, or the
model's text content. -/
inductive HttpOutcome where
  | requestError : String → HttpOutcome
  | noChoices : HttpOutcome
  | ok : String → HttpOutcome

/-- The outside world as one document processing sees it: whether
base64-encoding the image raises, what the HTTP call yields, the
current timestamp string, and at which insert (if any) the database
raises. -/
structure Env where
  encodeError : Option String
  http : HttpOutcome
  now : String
  dbFailAt : Option Nat

/-- The metadata keys every result dict starts with, in the order the
code writes them. -/
def metaKvs (image_path now index_type : String) : List (String × Json) :=
  [("source_path", Json.str image_path),
   ("processed_at", Json.str now),
   ("index_type", Json.str index_type)]

/-- The three dict assignments performed on a successfully parsed
object before persisting it. -/
def addMeta (jd : Json) (image_path now index_type : String) : Json :=
  ((jd.setIn "source_path" (Json.str image_path)).setIn
      "processed_at" (Json.str now)).setIn "index_type" (Json.str index_type)

/-- Model of `extract_document` (`extractor.py` lines 62-413): encode,
call the endpoint, extract JSON, persist, with every failure converted
into a returned result dict.  Returns the result dict and the database
state after the call. -/
def extract_document (env : Env) (image_path index_type : String) (db : DB) :
    Json × DB :=
  match env.encodeError with
  | some e =>
      (Json.obj (metaKvs image_path env.now index_type ++
        [("error", Json.str ("Image encoding error: " ++ e))]), db)
  | none =>
    match env.http with
    | HttpOutcome.requestError e =>
        (Json.obj (metaKvs image_path env.now index_type ++
          [("error", Json.str ("Request error: " ++ e))]), db)
    | HttpOutcome.noChoices =>
        (Json.obj (metaKvs image_path env.now index_type ++
          [("error", Json.str "No response content found")]), db)
    | HttpOutcome.ok content =>
        match extract_json_from_response content with
        | none =>
            (Json.obj (metaKvs image_path env.now index_type ++
              [("raw_content", Json.str content),
               ("parsing_error", Json.bool true),
               ("error", Json.str "Could not extract valid JSON from response")]), db)
        | some jd =>
            if jd.isObj then
              match persist env.dbFailAt (addMeta jd image_path env.now index_type)
                  index_type image_path db with
              | (db', none) => (addMeta jd image_path env.now index_type, db')
              | (db', some msg) =>
                  ((addMeta jd image_path env.now index_type).setIn
                    "database_error" (Json.str msg), db')
            else
              (Json.obj (metaKvs image_path env.now index_type ++
                [("error", Json.str "Unexpected error: response is not a JSON object")]), db)

/-! ## The batch driver (model of `process_batch_documents`) -/

/-- The driver's failure test (`extractor.py` lines 464 and 484):
membership of the `error` key, or Python truthiness of
`result.get("parsing_error")`. -/
def isFailure (r : Json) : Bool :=
  (r.getKey? "error").isSome || pyTruthyOpt (r.getKey? "parsing_error")

/-- ASCII lowering, model of Python `str.lower()` on the names at
hand. -/
def lowerAscii (s : String) : String := String.mk (s.data.map Char.toLower)

/-- Suffix test on character lists. -/
def sufTest (suffix l : List Char) : Bool :=
  List.isPrefixOf suffix.reverse l.reverse

/-- The directory-listing filter:
`f.lower().endswith(('.jpg', '.jpeg', '.png'))`. -/
def imgFilter (f : String) : Bool :=
  let l := (lowerAscii f).data
  sufTest ".jpg".data l || sufTest ".jpeg".data l || sufTest ".png".data l

/-- Model of `os.path.join` for POSIX paths as used here. -/
def pathJoin (dir f : String) : String :=
  if f.data.headD ' ' = '/' then f
  else if dir.data.isEmpty then f
  else if dir.data.getLast? = some '/' then dir ++ f
  else dir ++ "/" ++ f

/-- Code-point comparison of strings, the order Python `list.sort()`
uses on `str`. -/
def charListLe : List Char → List Char → Bool
  | [], _ => true
  | _ :: _, [] => false
  | x :: xs, y :: ys =>
      if x.toNat < y.toNat then true
      else if x.toNat = y.toNat then charListLe xs ys
      else false

/-- String comparison lifted from `charListLe`. -/
def strLeB (a b : String) : Bool := charListLe a.toList b.toList

/-- Insert into a sorted list after any equal elements (stability). -/
def insortStr (x : String) : List String → List String
  | [] => [x]
  | y :: ys => if strLeB y x then y :: insortStr x ys else x :: y :: ys

/-- Model of Python `list.sort()` on strings. -/
def pySort (l : List String) : List String :=
  l.foldl (fun acc x => insortStr x acc) []

/-- What one directory's loop produces: the result dicts in order, the
success and failure counters, the processed `(path, index_type)`
sequence, and the database afterwards. -/
structure LoopOut where
  results : List Json
  succCount : Nat
  failCount : Nat
  trace : List (String × String)
  db : DB

/-- One directory's processing loop (`extractor.py` lines 460-473 and
480-493): call `extract_document` on each file in order, append the
result, and bump the failure counter when `isFailure` holds, the
success counter otherwise. -/
def runFiles (envFor : String → String → Env) (ty : String) :
    List String → DB → LoopOut
  | [], db => ⟨[], 0, 0, [], db⟩
  | p :: ps, db =>
      let step := extract_document (envFor p ty) p ty db
      let rest := runFiles envFor ty ps step.2
      if isFailure step.1 then
        ⟨step.1 :: rest.results, rest.succCount, rest.failCount + 1,
         (p, ty) :: rest.trace, rest.db⟩
      else
        ⟨step.1 :: rest.results, rest.succCount + 1, rest.failCount,
         (p, ty) :: rest.trace, rest.db⟩

/-- The world as one batch run sees it: the two `os.listdir` results
(or the exception listing raised), and the per-file environment. -/
structure BatchEnv where
  listing : Except String (List String × List String)
  envFor : String → String → Env

/-- The aggregate the driver returns, including the processing order
as a trace. -/
structure BatchResults where
  total_index1_docs : Nat
  total_index2_docs : Nat
  total_docs : Nat
  index1_results : List Json
  index2_results : List Json
  index1_successful : Nat
  index1_failed : Nat
  index2_successful : Nat
  index2_failed : Nat
  trace : List (String × String)

/-- The zeroed result skeleton built before listing the directories. -/
def initResults : BatchResults := ⟨0, 0, 0, [], [], 0, 0, 0, 0, []⟩

/-- Model of `process_batch_documents` (`extractor.py` lines 415-519):
list and filter both directories, sort, process all kind-A files then
all kind-B files, tallying successes and failures; a listing failure
returns the zeroed skeleton before any file is touched. -/
def process_batch_documents (benv : BatchEnv) (folder1 folder2 : String)
    (db : DB) : BatchResults × DB :=
  match benv.listing with
  | Except.error _ => (initResults, db)
  | Except.ok (l1, l2) =>
      let files1 := pySort ((l1.filter imgFilter).map (pathJoin folder1))
      let files2 := pySort ((l2.filter imgFilter).map (pathJoin folder2))
      let o1 := runFiles benv.envFor "INDEX_1" files1 db
      let o2 := runFiles benv.envFor "INDEX_2" files2 o1.db
      (⟨files1.length, files2.length, files1.length + files2.length,
        o1.results, o2.results, o1.succCount, o1.failCount,
        o2.succCount, o2.failCount, o1.trace ++ o2.trace⟩, o2.db)

/-- The key-value list of the object recovered from the model reply,
when the HTTP call returned text and the extractor parsed it to a
dict — the "parse attempt produced a JSON object" event of the data
model invariant. -/
def parseProducedObj (env : Env) : Option (List (String × Json)) :=
  match env.http with
  | HttpOutcome.ok content =>
      match extract_json_from_response content with
      | some (Json.obj kvs) => some kvs
      | _ => none
  | _ => none

/-! ## Helper lemmas -/

/-- `scanIdx` finds exactly the first index satisfying the test. -/
theorem scanIdx_eq_some (p : List Char → Bool) :
    ∀ (l : List (List Char)) (i : Nat), i < l.length →
    p (l.getD i []) = true → (∀ j, j < i → p (l.getD j []) = false) →
    scanIdx p l = some i := by
  intro l
  induction l with
  | nil => intro i hi _ _; simp at hi
  | cons x xs ih =>
      intro i hi hp hmin
      cases i with
      | zero => simp [scanIdx]; simpa using hp
      | succ i =>
          have hx : p x = false := by simpa using hmin 0 (Nat.succ_pos i)
          have : scanIdx p xs = some i := by
            refine ih i (by simpa using hi) (by simpa using hp) ?_
            intro j hj
            simpa using hmin (j + 1) (by omega)
          simp [scanIdx, hx, this]

/-- `lastBraceIdx`-style reverse scan finds exactly the last index
satisfying the test. -/
theorem lastBraceIdx_eq_some (l : List (List Char)) (k : Nat)
    (hk : k < l.length) (hp : lineEndsBrace (l.getD k []) = true)
    (hmax : ∀ j, j < l.length → k < j → lineEndsBrace (l.getD j []) = false) :
    lastBraceIdx l = some k := by
  have hrev : scanIdx lineEndsBrace l.reverse = some (l.length - 1 - k) := by
    refine scanIdx_eq_some _ _ _ (by simp; omega) ?_ ?_
    · have h1 : l.length - 1 - (l.length - 1 - k) = k := by omega
      have h2 : l.length - 1 - k < l.length := by omega
      rw [List.getD_eq_getElem _ _ (by simp; omega), List.getElem_reverse]
      rw [← List.getD_eq_getElem _ ([] : List Char) (by omega)]
      simpa [h1] using hp
    · intro j hj
      have hjl : j < l.length := by omega
      rw [List.getD_eq_getElem _ _ (by simpa using hjl), List.getElem_reverse]
      rw [← List.getD_eq_getElem _ ([] : List Char) (by omega)]
      exact hmax _ (by omega) (by omega)
  simp [lastBraceIdx, hrev]
  omega

/-- The entry loop reports nothing when every item is a dict and no
insert is scheduled to fail. -/
theorem entryLoop_none_of_objs (es : List Json) :
    ∀ n, (∀ e ∈ es, e.isObj = true) → entryLoop none es n = none := by
  induction es with
  | nil => intro n _; rfl
  | cons e es ih =>
      intro n h
      have he : e.isObj = true := h e (List.mem_cons_self e es)
      have hes : ∀ x ∈ es, x.isObj = true := fun x hx => h x (List.mem_cons_of_mem e hx)
      simp [entryLoop, he, ih (n + 1) hes]

/-- A failing persistence step leaves the database untouched. -/
theorem persist_fail_db_unchanged (dbFailAt : Option Nat) (jd : Json)
    (ty path : String) (db : DB) (msg : String)
    (h : (persist dbFailAt jd ty path db).2 = some msg) :
    (persist dbFailAt jd ty path db).1 = db := by
  revert h
  unfold persist
  split
  · intro _; rfl
  · split
    · intro _; rfl
    · split
      · intro _; rfl
      · split <;> intro h <;> simp at h

/-- A successful persistence step appends exactly one document row. -/
theorem persist_ok_documents (dbFailAt : Option Nat) (jd : Json)
    (ty path : String) (db : DB)
    (h : (persist dbFailAt jd ty path db).2 = none) :
    (persist dbFailAt jd ty path db).1.documents =
      db.documents ++ [mkDocRow (db.documents.length + 1) jd path] := by
  revert h
  unfold persist
  split
  · intro h; simp at h
  · split
    · intro h; simp at h
    · split
      · intro h; simp at h
      · split <;> intro _ <;> rfl

/-- Dict assignment stores the value under the assigned key. -/
theorem lookupKey_setKey_self (k : String) (v : Json) :
    ∀ l, lookupKey k (setKey k v l) = some v := by
  intro l
  induction l with
  | nil => simp [setKey, lookupKey]
  | cons kv rest ih =>
      by_cases h : kv.1 = k
      · simp [setKey, lookupKey, h]
      · simp [setKey, lookupKey, h, ih]

/-- Dict assignment leaves other keys alone. -/
theorem lookupKey_setKey_ne (k k' : String) (v : Json) (h : k' ≠ k) :
    ∀ l, lookupKey k' (setKey k v l) = lookupKey k' l := by
  intro l
  induction l with
  | nil => simp [setKey, lookupKey, Ne.symm h]
  | cons kv rest ih =>
      by_cases hk : kv.1 = k
      · subst hk
        simp [setKey, lookupKey, Ne.symm h]
      · simp [setKey, lookupKey, hk, ih]

/-- The three metadata assignments leave every other key's binding
unchanged. -/
theorem getKey_addMeta (kvs : List (String × Json)) (path now ty k : String)
    (h1 : k ≠ "source_path") (h2 : k ≠ "processed_at") (h3 : k ≠ "index_type") :
    (addMeta (Json.obj kvs) path now ty).getKey? k = (Json.obj kvs).getKey? k := by
  simp [addMeta, Json.setIn, Json.getKey?,
    lookupKey_setKey_ne _ _ _ h3, lookupKey_setKey_ne _ _ _ h2,
    lookupKey_setKey_ne _ _ _ h1]

/-- The loop trace is the processed file list in order, each tagged
with the active index kind. -/
theorem runFiles_trace (envFor : String → String → Env) (ty : String) :
    ∀ (paths : List String) (db : DB),
    (runFiles envFor ty paths db).trace = paths.map (fun p => (p, ty)) := by
  intro paths
  induction paths with
  | nil => intro db; rfl
  | cons p ps ih =>
      intro db
      simp only [runFiles]
      split <;> simp [ih]

/-! ## Claim C6: strict tier order, first success wins -/

/-- Claim C6: the extractor's three fallback strategies apply in strict
order and it stops at the first success: a text whose stripped form
parses directly is returned by tier 1; when tier 1 fails and the
fenced-block pattern captures a parseable body, that body's value is
returned; and the input consisting of the object alone is recovered via
the direct parse. -/
theorem C6_theorem :
    (∀ (content : String) (j : Json),
        json_loadsL (pyStrip content.toList) = some j →
        extract_json_from_response content = some j)
    ∧ (∀ (content : String) (g : List Char) (j : Json),
        json_loadsL (pyStrip content.toList) = none →
        fenceSearch content.toList = some g →
        json_loadsL g = some j →
        extract_json_from_response content = some j)
    ∧ extract_json_from_response "\x7b\"a\":1\x7d" = some (Json.obj [("a", Json.num "1")]) := by
  refine ⟨?_, ?_, rfl⟩
  · intro content j h
    have h' : json_loadsL (pyStrip content.data) = some j := h
    simp [extract_json_from_response, extractL, h']
  · intro content g j h1 h2 h3
    have h1' : json_loadsL (pyStrip content.data) = none := h1
    have h2' : fenceSearch content.data = some g := h2
    simp [extract_json_from_response, extractL, h1', h2', h3]

/-- Witness for C6 at the specification's fenced example. -/
theorem C6_witness :
    extract_json_from_response "Here you go:\n```json\n\x7b\"a\":1\x7d\n```\nThanks"
      = some (Json.obj [("a", Json.num "1")]) :=
  C6_theorem.2.1 "Here you go:\n```json\n\x7b\"a\":1\x7d\n```\nThanks"
    ("\x7b\"a\":1\x7d".toList) (Json.obj [("a", Json.num "1")]) rfl rfl rfl

/-! ## Claim C2: total extraction, failure reported as a result object -/

/-- Claim C2 counterexample: on the input `[1,2]` the extractor returns
a parsed JSON array — neither a JSON object nor the no-JSON result
`None` — so the claim as stated (object or `None`) fails. -/
theorem C2_counterexample :
    extract_json_from_response "[1,2]" = some (Json.arr [Json.num "1", Json.num "2"])
    ∧ Json.isObj (Json.arr [Json.num "1", Json.num "2"]) = false :=
  ⟨rfl, rfl⟩

/-- Claim C2 (amended): for every input the extractor returns a parsed
JSON value or `none` (it is a total function, never an uncaught error),
and when extraction fails `extract_document` reports the failure as a
result object with `parsing_error` and `error` set and the raw model
text attached, leaving the database untouched. -/
theorem C2_theorem :
    (∀ content : String,
        extract_json_from_response content = none
        ∨ ∃ j, extract_json_from_response content = some j)
    ∧ (∀ (env : Env) (path ty : String) (db : DB) (content : String),
        env.encodeError = none → env.http = HttpOutcome.ok content →
        extract_json_from_response content = none →
        extract_document env path ty db =
          (Json.obj (metaKvs path env.now ty ++
            [("raw_content", Json.str content),
             ("parsing_error", Json.bool true),
             ("error", Json.str "Could not extract valid JSON from response")]), db)) := by
  constructor
  · intro content
    cases h : extract_json_from_response content with
    | none => exact Or.inl rfl
    | some j => exact Or.inr ⟨j, rfl⟩
  · intro env path ty db content henc hhttp hext
    simp [extract_document, henc, hhttp, hext]

/-- Witness for C2 on a concrete prose-only response. -/
theorem C2_witness :
    extract_document ⟨none, HttpOutcome.ok "no json here", "T0", none⟩
        "img.jpg" "INDEX_1" ⟨[], [], []⟩ =
      (Json.obj (metaKvs "img.jpg" "T0" "INDEX_1" ++
        [("raw_content", Json.str "no json here"),
         ("parsing_error", Json.bool true),
         ("error", Json.str "Could not extract valid JSON from response")]),
       ⟨[], [], []⟩) :=
  C2_theorem.2 ⟨none, HttpOutcome.ok "no json here", "T0", none⟩
    "img.jpg" "INDEX_1" ⟨[], [], []⟩ "no json here" rfl rfl rfl

/-! ## Claim C9: listing failure aborts before any file -/

/-- Claim C9: when listing either directory fails, the batch driver
returns the zeroed summary skeleton built before the listing — zero
counts, empty result lists, an empty processing trace — and the
database is untouched; no exception escapes (the model returns a
value). -/
theorem C9_theorem (e : String) (envFor : String → String → Env)
    (f1 f2 : String) (db : DB) :
    process_batch_documents ⟨Except.error e, envFor⟩ f1 f2 db = (initResults, db)
    ∧ initResults.total_index1_docs = 0
    ∧ initResults.total_index2_docs = 0
    ∧ initResults.total_docs = 0
    ∧ initResults.index1_results = []
    ∧ initResults.index2_results = []
    ∧ initResults.index1_successful = 0
    ∧ initResults.index1_failed = 0
    ∧ initResults.index2_successful = 0
    ∧ initResults.index2_failed = 0
    ∧ initResults.trace = [] :=
  ⟨rfl, rfl, rfl, rfl, rfl, rfl, rfl, rfl, rfl, rfl, rfl⟩

/-! ## Claim C4: failure classification in the batch loops -/

/-- The loop's counters tally exactly the results satisfying the
classification test: `error` key present, or a truthy
`parsing_error`. -/
theorem runFiles_counts (envFor : String → String → Env) (ty : String) :
    ∀ (paths : List String) (db : DB),
    (runFiles envFor ty paths db).failCount =
      (runFiles envFor ty paths db).results.countP (fun r => isFailure r)
    ∧ (runFiles envFor ty paths db).succCount =
      (runFiles envFor ty paths db).results.countP (fun r => !isFailure r)
    ∧ (runFiles envFor ty paths db).results.length = paths.length := by
  intro paths
  induction paths with
  | nil => intro db; exact ⟨rfl, rfl, rfl⟩
  | cons p ps ih =>
      intro db
      simp only [runFiles]
      cases hf : isFailure (extract_document (envFor p ty) p ty db).1 with
      | true => simp [hf, List.countP_cons, ih]
      | false => simp [hf, List.countP_cons, ih]

/-- Claim C4 counterexample: a response whose parsed object carries
`parsing_error: "no"` — a non-`true` value — is nevertheless counted as
failed by the loop (Python truthiness of a nonempty string), refuting
the stated biconditional `failed iff error key or parsing_error =
true`. -/
theorem C4_counterexample :
    (runFiles (fun _ _ => ⟨none, HttpOutcome.ok "\x7b\"parsing_error\": \"no\"\x7d", "T0", none⟩)
        "INDEX_1" ["a.jpg"] ⟨[], [], []⟩).failCount = 1
    ∧ (runFiles (fun _ _ => ⟨none, HttpOutcome.ok "\x7b\"parsing_error\": \"no\"\x7d", "T0", none⟩)
        "INDEX_1" ["a.jpg"] ⟨[], [], []⟩).succCount = 0
    ∧ ((runFiles (fun _ _ => ⟨none, HttpOutcome.ok "\x7b\"parsing_error\": \"no\"\x7d", "T0", none⟩)
        "INDEX_1" ["a.jpg"] ⟨[], [], []⟩).results.headD Json.null).getKey? "error" = none
    ∧ ((runFiles (fun _ _ => ⟨none, HttpOutcome.ok "\x7b\"parsing_error\": \"no\"\x7d", "T0", none⟩)
        "INDEX_1" ["a.jpg"] ⟨[], [], []⟩).results.headD Json.null).getKey? "parsing_error"
      = some (Json.str "no") :=
  ⟨rfl, rfl, rfl, rfl⟩

/-- Claim C4 (amended): in both directory loops, a result is counted as
failed exactly when it carries an `error` key or a Python-truthy
`parsing_error` value (not only the literal `true`), and as successful
otherwise; the two counters partition the produced results. -/
theorem C4_theorem (l1 l2 : List String) (envFor : String → String → Env)
    (f1 f2 : String) (db : DB) :
    ((process_batch_documents ⟨Except.ok (l1, l2), envFor⟩ f1 f2 db).1.index1_failed
      = (process_batch_documents ⟨Except.ok (l1, l2), envFor⟩ f1 f2 db).1.index1_results.countP
          (fun r => (r.getKey? "error").isSome || pyTruthyOpt (r.getKey? "parsing_error")))
    ∧ ((process_batch_documents ⟨Except.ok (l1, l2), envFor⟩ f1 f2 db).1.index1_successful
      = (process_batch_documents ⟨Except.ok (l1, l2), envFor⟩ f1 f2 db).1.index1_results.countP
          (fun r => !((r.getKey? "error").isSome || pyTruthyOpt (r.getKey? "parsing_error"))))
    ∧ ((process_batch_documents ⟨Except.ok (l1, l2), envFor⟩ f1 f2 db).1.index2_failed
      = (process_batch_documents ⟨Except.ok (l1, l2), envFor⟩ f1 f2 db).1.index2_results.countP
          (fun r => (r.getKey? "error").isSome || pyTruthyOpt (r.getKey? "parsing_error")))
    ∧ ((process_batch_documents ⟨Except.ok (l1, l2), envFor⟩ f1 f2 db).1.index2_successful
      = (process_batch_documents ⟨Except.ok (l1, l2), envFor⟩ f1 f2 db).1.index2_results.countP
          (fun r => !((r.getKey? "error").isSome || pyTruthyOpt (r.getKey? "parsing_error")))) := by
  simp only [process_batch_documents]
  refine ⟨?_, ?_, ?_, ?_⟩
  · exact (runFiles_counts envFor "INDEX_1" _ _).1
  · exact (runFiles_counts envFor "INDEX_1" _ _).2.1
  · exact (runFiles_counts envFor "INDEX_2" _ _).1
  · exact (runFiles_counts envFor "INDEX_2" _ _).2.1

/-! ## Claim C8: file selection and processing order -/

/-- Claim C8: each directory's loop processes exactly the files whose
lowercased name ends in `.jpg`, `.jpeg` or `.png`, joined to the folder
and sorted lexicographically, and the single-task driver processes all
kind-A files before any kind-B file; on the directory
`b.png, a.jpg, c.jpeg` the order is `a.jpg, b.png, c.jpeg`. -/
theorem C8_theorem (l1 l2 : List String) (envFor : String → String → Env)
    (f1 f2 : String) (db : DB) :
    ((process_batch_documents ⟨Except.ok (l1, l2), envFor⟩ f1 f2 db).1.trace
      = (pySort ((l1.filter imgFilter).map (pathJoin f1))).map (fun p => (p, "INDEX_1"))
        ++ (pySort ((l2.filter imgFilter).map (pathJoin f2))).map (fun p => (p, "INDEX_2")))
    ∧ ((process_batch_documents ⟨Except.ok (["b.png", "a.jpg", "c.jpeg"], ([] : List String)), envFor⟩
          "dir1" "dir2" db).1.trace
      = [("dir1/a.jpg", "INDEX_1"), ("dir1/b.png", "INDEX_1"), ("dir1/c.jpeg", "INDEX_1")])
    ∧ imgFilter "A.JPG" = true
    ∧ imgFilter "photo.PnG" = true
    ∧ imgFilter "b.jpeg" = true
    ∧ imgFilter "notes.txt" = false := by
  refine ⟨?_, ?_, rfl, rfl, rfl, rfl⟩
  · simp [process_batch_documents, runFiles_trace]
  · simp [process_batch_documents, runFiles_trace]
    decide

/-! ## Claim C3: one document row, one entry row per entry item -/

/-- Claim C3 counterexample: a parsed object whose `entries` array
holds one item that is not itself an object makes the writer fail
(`entry.get` on a non-dict) before the commit: zero Document rows and
zero Entry rows are stored, refuting "exactly one Document row and
exactly N Entry rows" for N = 1. -/
theorem C3_counterexample :
    (Json.obj [("entries", Json.arr [Json.num "1"])]).getKey? "entries"
      = some (Json.arr [Json.num "1"])
    ∧ [Json.num "1"].length = 1
    ∧ persist none (Json.obj [("entries", Json.arr [Json.num "1"])]) "INDEX_1" "img.jpg"
        ⟨[], [], []⟩ = (⟨[], [], []⟩, some "AttributeError: get") :=
  ⟨rfl, rfl, rfl⟩

/-- Claim C3 (amended): for a parsed JSON object whose `entries` array
has N items each of which is itself a JSON object, and with no insert
failing, the record writer commits exactly one Document row and exactly
N Entry rows of the kind-selected shape, each referencing the created
document's identifier. -/
theorem C3_theorem (kvs : List (String × Json)) (es : List Json)
    (ty path : String) (db : DB)
    (hentries : (Json.obj kvs).getKey? "entries" = some (Json.arr es))
    (hitems : ∀ e ∈ es, e.isObj = true) :
    persist none (Json.obj kvs) ty path db =
      (⟨db.documents ++ [mkDocRow (db.documents.length + 1) (Json.obj kvs) path],
        db.index1_entries ++
          (if ty = "INDEX_1" then es.map (mkIndex1Row (db.documents.length + 1)) else []),
        db.index2_entries ++
          (if ty = "INDEX_1" then [] else es.map (mkIndex2Row (db.documents.length + 1)))⟩, none)
    ∧ (es.map (mkIndex1Row (db.documents.length + 1))).length = es.length
    ∧ (es.map (mkIndex2Row (db.documents.length + 1))).length = es.length
    ∧ (∀ r ∈ es.map (mkIndex1Row (db.documents.length + 1)),
        r.document_id = db.documents.length + 1)
    ∧ (∀ r ∈ es.map (mkIndex2Row (db.documents.length + 1)),
        r.document_id = db.documents.length + 1) := by
  have hel : entryLoop none es 1 = none := entryLoop_none_of_objs es 1 hitems
  refine ⟨?_, by simp, by simp, ?_, ?_⟩
  · unfold persist
    rw [if_neg (by simp), hentries]
    simp only [Option.getD_some, Json.pyIter, hel]
    split <;> simp
  · intro r hr
    obtain ⟨e, _, rfl⟩ := List.mem_map.mp hr
    rfl
  · intro r hr
    obtain ⟨e, _, rfl⟩ := List.mem_map.mp hr
    rfl

/-- Witness for C3: the kind-A zero-entries response yields exactly one
Document row and no Entry rows. -/
theorem C3_witness :
    persist none (Json.obj [("entries", Json.arr [])]) "INDEX_1" "img.jpg" ⟨[], [], []⟩ =
      (⟨[mkDocRow 1 (Json.obj [("entries", Json.arr [])]) "img.jpg"], [], []⟩, none) :=
  (C3_theorem [("entries", Json.arr [])] [] "INDEX_1" "img.jpg" ⟨[], [], []⟩ rfl
    (by simp)).1

/-! ## Claim C1: recovering an embedded JSON object -/

/-- Claim C1 counterexample: a text containing a single well-formed
JSON object surrounded by prose on the same line is not recovered — the
direct parse fails, there is no fence, and no line starts with the
opening brace, so the extractor returns `none`. -/
theorem C1_counterexample :
    "The object is " ++ "\x7b\"a\": 1\x7d" ++ " thanks" = "The object is \x7b\"a\": 1\x7d thanks"
    ∧ json_loads "\x7b\"a\": 1\x7d" = some (Json.obj [("a", Json.num "1")])
    ∧ extract_json_from_response "The object is \x7b\"a\": 1\x7d thanks" = none :=
  ⟨rfl, rfl, rfl⟩

/-- Claim C1 (amended): when the direct parse fails, the fenced-block
pattern finds nothing, and the text contains a well-formed JSON object
occupying a whole-line range — the first line whose stripped form opens
with a brace through the last line whose stripped form closes with one,
that joined range parsing as JSON — the extractor returns exactly that
object.  (Prose sharing a line with the braces can defeat extraction,
as the counterexample shows.) -/
theorem C1_theorem (cs : List Char) (s e : Nat) (j : Json)
    (hdirect : json_loadsL (pyStrip cs) = none)
    (hfence : fenceSearch cs = none)
    (hs : s < (tier3Lines cs).length)
    (he : e < (tier3Lines cs).length)
    (hsb : lineStartsBrace ((tier3Lines cs).getD s []) = true)
    (hsmin : ∀ i, i < s → lineStartsBrace ((tier3Lines cs).getD i []) = false)
    (heb : lineEndsBrace ((tier3Lines cs).getD e []) = true)
    (hemax : ∀ i, i < (tier3Lines cs).length → e < i →
      lineEndsBrace ((tier3Lines cs).getD i []) = false)
    (hparse : json_loadsL (joinNl (((tier3Lines cs).drop s).take (e + 1 - s))) = some j) :
    extractL cs = some j := by
  have h1 : firstBraceIdx (tier3Lines cs) = some s :=
    scanIdx_eq_some lineStartsBrace (tier3Lines cs) s hs hsb hsmin
  have h2 : lastBraceIdx (tier3Lines cs) = some e :=
    lastBraceIdx_eq_some (tier3Lines cs) e he heb hemax
  simp only [extractL, hdirect, hfence, lineRangeTier]
  rw [h1, h2]
  exact hparse

/-- Witness for C1 on a prose / object-line / prose input. -/
theorem C1_witness :
    extract_json_from_response "Here is the result:\n\x7b\"a\": 1\x7d\nThanks"
      = some (Json.obj [("a", Json.num "1")]) :=
  C1_theorem ("Here is the result:\n\x7b\"a\": 1\x7d\nThanks".data) 1 1
    (Json.obj [("a", Json.num "1")]) rfl rfl (by decide) (by decide)
    (by decide) (by decide) (by decide) (by decide) rfl

/-! ## Claim C5: document-row existence invariant -/

/-- A list never equals itself extended by one row. -/
theorem noSelfAppend (l : List DocRow) (r : DocRow) : ¬ l = l ++ [r] := by
  intro h
  have := congrArg List.length h
  simp at this

/-- Claim C5 counterexample: the response `\x7b"entries": "x"\x7d`
parses to a JSON object, but persisting it fails (iterating the string
yields non-dict items whose `.get` raises), so no Document row is
stored even though the parse attempt produced an object — refuting the
stated biconditional. -/
theorem C5_counterexample :
    extract_json_from_response "\x7b\"entries\": \"x\"\x7d"
      = some (Json.obj [("entries", Json.str "x")])
    ∧ (extract_document ⟨none, HttpOutcome.ok "\x7b\"entries\": \"x\"\x7d", "T0", none⟩
        "img.jpg" "INDEX_2" ⟨[], [], []⟩).2.documents = []
    ∧ ((extract_document ⟨none, HttpOutcome.ok "\x7b\"entries\": \"x\"\x7d", "T0", none⟩
        "img.jpg" "INDEX_2" ⟨[], [], []⟩).1.getKey? "database_error").isSome = true :=
  ⟨rfl, rfl, rfl⟩

/-- Claim C5 (amended): after processing a file, a new Document row for
that file exists if and only if the image was encodable, the call
returned text whose parse produced a JSON object, and the persistence
step committed without a database error; a failed persistence leaves no
row even though an object was parsed. -/
theorem C5_theorem (env : Env) (path ty : String) (db : DB) :
    (∃ r, (extract_document env path ty db).2.documents = db.documents ++ [r]
        ∧ r.source_path = path)
    ↔ (env.encodeError = none ∧ ∃ kvs, parseProducedObj env = some kvs
        ∧ (persist env.dbFailAt (addMeta (Json.obj kvs) path env.now ty) ty path db).2
          = none) := by
  obtain ⟨enc, http, now, dbf⟩ := env
  cases enc with
  | some e =>
      constructor
      · rintro ⟨r, hr, -⟩
        exact absurd hr (noSelfAppend _ _)
      · rintro ⟨h, -⟩
        cases h
  | none =>
    cases http with
    | requestError e =>
        constructor
        · rintro ⟨r, hr, -⟩
          exact absurd hr (noSelfAppend _ _)
        · rintro ⟨-, kvs, hk, -⟩
          simp [parseProducedObj] at hk
    | noChoices =>
        constructor
        · rintro ⟨r, hr, -⟩
          exact absurd hr (noSelfAppend _ _)
        · rintro ⟨-, kvs, hk, -⟩
          simp [parseProducedObj] at hk
    | ok content =>
      cases hext : extract_json_from_response content with
      | none =>
          constructor
          · rintro ⟨r, hr, -⟩
            simp only [extract_document, hext] at hr
            exact absurd hr (noSelfAppend _ _)
          · rintro ⟨-, kvs, hk, -⟩
            simp [parseProducedObj, hext] at hk
      | some jd =>
        cases jd with
        | obj kvs0 =>
            rcases hpp : persist dbf (addMeta (Json.obj kvs0) path now ty) ty path db
              with ⟨db2, res⟩
            cases res with
            | none =>
                constructor
                · intro _
                  exact ⟨rfl, kvs0, by simp [parseProducedObj, hext], by rw [hpp]⟩
                · intro _
                  refine ⟨mkDocRow (db.documents.length + 1)
                    (addMeta (Json.obj kvs0) path now ty) path, ?_, rfl⟩
                  have h2 : (extract_document ⟨none, HttpOutcome.ok content, now, dbf⟩
                      path ty db).2 = db2 := by
                    simp [extract_document, hext, hpp, Json.isObj]
                  rw [h2]
                  have h3 := persist_ok_documents dbf (addMeta (Json.obj kvs0) path now ty)
                    ty path db (by rw [hpp])
                  rw [hpp] at h3
                  exact h3
            | some msg =>
                constructor
                · rintro ⟨r, hr, -⟩
                  have h2 : (extract_document ⟨none, HttpOutcome.ok content, now, dbf⟩
                      path ty db).2 = db2 := by
                    simp [extract_document, hext, hpp, Json.isObj]
                  have h3 : db2 = db := by
                    have h4 := persist_fail_db_unchanged dbf
                      (addMeta (Json.obj kvs0) path now ty) ty path db msg (by rw [hpp])
                    rw [hpp] at h4
                    exact h4
                  rw [h2, h3] at hr
                  exact absurd hr (noSelfAppend _ _)
                · rintro ⟨-, kvs1, hk, hpnone⟩
                  simp [parseProducedObj, hext] at hk
                  subst hk
                  rw [hpp] at hpnone
                  cases hpnone
        | null =>
            constructor
            · rintro ⟨r, hr, -⟩
              simp [extract_document, hext, Json.isObj] at hr
            · rintro ⟨-, kvs, hk, -⟩
              simp [parseProducedObj, hext] at hk
        | bool b =>
            constructor
            · rintro ⟨r, hr, -⟩
              simp [extract_document, hext, Json.isObj] at hr
            · rintro ⟨-, kvs, hk, -⟩
              simp [parseProducedObj, hext] at hk
        | num s' =>
            constructor
            · rintro ⟨r, hr, -⟩
              simp [extract_document, hext, Json.isObj] at hr
            · rintro ⟨-, kvs, hk, -⟩
              simp [parseProducedObj, hext] at hk
        | str s' =>
            constructor
            · rintro ⟨r, hr, -⟩
              simp [extract_document, hext, Json.isObj] at hr
            · rintro ⟨-, kvs, hk, -⟩
              simp [parseProducedObj, hext] at hk
        | arr xs =>
            constructor
            · rintro ⟨r, hr, -⟩
              simp [extract_document, hext, Json.isObj] at hr
            · rintro ⟨-, kvs, hk, -⟩
              simp [parseProducedObj, hext] at hk

/-- Witness for C5: a fully successful run stores exactly one new
Document row for the processed file. -/
theorem C5_witness :
    ∃ r, (extract_document ⟨none, HttpOutcome.ok "\x7b\"entries\": []\x7d", "T0", none⟩
        "img.jpg" "INDEX_2" ⟨[], [], []⟩).2.documents = [] ++ [r]
      ∧ r.source_path = "img.jpg" :=
  (C5_theorem ⟨none, HttpOutcome.ok "\x7b\"entries\": []\x7d", "T0", none⟩
    "img.jpg" "INDEX_2" ⟨[], [], []⟩).mpr
    ⟨rfl, [("entries", Json.arr [])], rfl, rfl⟩

/-! ## Claim C7: exact, case-sensitive field lookup; missing fields null -/

/-- Claim C7: the kind-B writer reads the slash-bearing field name
`Pargana/Town/Thana` byte-for-byte — the bound value (of any type, no
validation or coercion) is stored verbatim, differently-cased variants
are not matched — and every field missing from an entry object is
stored as null, for both table shapes. -/
theorem C7_theorem (docId : Nat) (v : Json) (kvs : List (String × Json)) :
    (mkIndex2Row docId (Json.obj (("Pargana/Town/Thana", v) :: kvs))).pargana_town_thana = v
    ∧ (mkIndex2Row docId (Json.obj [("pargana/town/thana", v)])).pargana_town_thana = Json.null
    ∧ (mkIndex2Row docId (Json.obj [("PARGANA/TOWN/THANA", v)])).pargana_town_thana = Json.null
    ∧ (∀ e : Json, e.getKey? "serial_number" = none →
        (mkIndex2Row docId e).serial_number = Json.null)
    ∧ (∀ e : Json, e.getKey? "property_name" = none →
        (mkIndex2Row docId e).property_name = Json.null)
    ∧ (∀ e : Json, e.getKey? "Pargana/Town/Thana" = none →
        (mkIndex2Row docId e).pargana_town_thana = Json.null)
    ∧ (∀ e : Json, e.getKey? "location" = none →
        (mkIndex2Row docId e).location = Json.null)
    ∧ (∀ e : Json, e.getKey? "nature_of_transaction" = none →
        (mkIndex2Row docId e).nature_of_transaction = Json.null)
    ∧ (∀ e : Json, e.getKey? "where_registered" = none →
        (mkIndex2Row docId e).where_registered = Json.null)
    ∧ (∀ e : Json, e.getKey? "book_1_volume" = none →
        (mkIndex2Row docId e).book_1_volume = Json.null)
    ∧ (∀ e : Json, e.getKey? "book_1_page" = none →
        (mkIndex2Row docId e).book_1_page = Json.null)
    ∧ (∀ e : Json, e.getKey? "serial_number" = none →
        (mkIndex1Row docId e).serial_number = Json.null)
    ∧ (∀ e : Json, e.getKey? "name_of_person" = none →
        (mkIndex1Row docId e).name_of_person = Json.null)
    ∧ (∀ e : Json, e.getKey? "family_details" = none →
        (mkIndex1Row docId e).family_details = Json.null)
    ∧ (∀ e : Json, e.getKey? "police_station" = none →
        (mkIndex1Row docId e).police_station = Json.null)
    ∧ (∀ e : Json, e.getKey? "religion" = none →
        (mkIndex1Row docId e).religion = Json.null)
    ∧ (∀ e : Json, e.getKey? "occupation" = none →
        (mkIndex1Row docId e).occupation = Json.null)
    ∧ (∀ e : Json, e.getKey? "interest_of_person" = none →
        (mkIndex1Row docId e).interest_of_person = Json.null)
    ∧ (∀ e : Json, e.getKey? "where_registered" = none →
        (mkIndex1Row docId e).where_registered = Json.null)
    ∧ (∀ e : Json, e.getKey? "book_1_volume" = none →
        (mkIndex1Row docId e).book_1_volume = Json.null)
    ∧ (∀ e : Json, e.getKey? "book_2_page" = none →
        (mkIndex1Row docId e).book_2_page = Json.null) := by
  refine ⟨?_, ?_, ?_, ?_, ?_, ?_, ?_, ?_, ?_, ?_, ?_, ?_, ?_, ?_, ?_, ?_, ?_, ?_, ?_, ?_, ?_⟩
  · simp [mkIndex2Row, Json.pyGet, Json.getKey?, lookupKey]
  · simp [mkIndex2Row, Json.pyGet, Json.getKey?, lookupKey]
  · simp [mkIndex2Row, Json.pyGet, Json.getKey?, lookupKey]
  all_goals intro e h
  all_goals simp [mkIndex2Row, mkIndex1Row, Json.pyGet, h]

/-- Witness for C7: the slash-bearing field is stored verbatim, and a
field missing from the entry object is stored as null. -/
theorem C7_witness :
    (mkIndex2Row 7 (Json.obj [("Pargana/Town/Thana", Json.str "Ausgram")])).pargana_town_thana
      = Json.str "Ausgram"
    ∧ (mkIndex2Row 7 (Json.obj [])).property_name = Json.null :=
  ⟨(C7_theorem 7 (Json.str "Ausgram") []).1,
   (C7_theorem 7 (Json.str "Ausgram") []).2.2.2.2.1 (Json.obj []) rfl⟩

/-! ## Claim C10: database failure leaves no rows, reported separately -/

/-- Claim C10 counterexample: when the parsed object itself carries an
`error` key (put there by the model), a database failure still leaves
no rows and is recorded under `database_error`, but the result is
classified as FAILED — refuting "therefore classified as successful". -/
theorem C10_counterexample :
    (extract_document ⟨none, HttpOutcome.ok "\x7b\"error\": \"from model\"\x7d", "T0", some 0⟩
        "img.jpg" "INDEX_1" ⟨[], [], []⟩).2 = ⟨[], [], []⟩
    ∧ ((extract_document ⟨none, HttpOutcome.ok "\x7b\"error\": \"from model\"\x7d", "T0", some 0⟩
        "img.jpg" "INDEX_1" ⟨[], [], []⟩).1.getKey? "database_error")
      = some (Json.str "database insert failed")
    ∧ isFailure (extract_document ⟨none, HttpOutcome.ok "\x7b\"error\": \"from model\"\x7d", "T0",
        some 0⟩ "img.jpg" "INDEX_1" ⟨[], [], []⟩).1 = true :=
  ⟨rfl, rfl, rfl⟩

/-- Claim C10 (amended): if a database insert fails while persisting a
parsed object, nothing is committed (the database is exactly as
before), the failure message is recorded under `database_error` while
the `error` and `parsing_error` bindings stay whatever the parsed
object had, and the result is classified as successful provided the
parsed object itself carried no `error` key and no truthy
`parsing_error`. -/
theorem C10_theorem (env : Env) (path ty content msg : String) (db : DB)
    (kvs : List (String × Json))
    (henc : env.encodeError = none)
    (hhttp : env.http = HttpOutcome.ok content)
    (hext : extract_json_from_response content = some (Json.obj kvs))
    (hfail : (persist env.dbFailAt (addMeta (Json.obj kvs) path env.now ty) ty path db).2
      = some msg) :
    (extract_document env path ty db).2 = db
    ∧ (extract_document env path ty db).1
      = (addMeta (Json.obj kvs) path env.now ty).setIn "database_error" (Json.str msg)
    ∧ ((extract_document env path ty db).1).getKey? "database_error" = some (Json.str msg)
    ∧ ((extract_document env path ty db).1).getKey? "error" = (Json.obj kvs).getKey? "error"
    ∧ ((extract_document env path ty db).1).getKey? "parsing_error"
      = (Json.obj kvs).getKey? "parsing_error"
    ∧ ((Json.obj kvs).getKey? "error" = none →
        pyTruthyOpt ((Json.obj kvs).getKey? "parsing_error") = false →
        isFailure (extract_document env path ty db).1 = false) := by
  rcases hpp : persist env.dbFailAt (addMeta (Json.obj kvs) path env.now ty) ty path db
    with ⟨db2, res⟩
  have hres2 : res = some msg := by
    rw [hpp] at hfail
    exact hfail
  subst hres2
  have hdb2 : db2 = db := by
    have h4 := persist_fail_db_unchanged env.dbFailAt
      (addMeta (Json.obj kvs) path env.now ty) ty path db msg (by rw [hpp])
    rw [hpp] at h4
    exact h4
  rw [hdb2] at hpp
  have hres : extract_document env path ty db
      = ((addMeta (Json.obj kvs) path env.now ty).setIn "database_error" (Json.str msg),
         db) := by
    simp only [extract_document, henc, hhttp, hext, Json.isObj, hpp, if_true]
  have hobj : addMeta (Json.obj kvs) path env.now ty
      = Json.obj (setKey "index_type" (Json.str ty)
          (setKey "processed_at" (Json.str env.now)
            (setKey "source_path" (Json.str path) kvs))) := rfl
  have hdbkey : ((addMeta (Json.obj kvs) path env.now ty).setIn "database_error"
      (Json.str msg)).getKey? "database_error" = some (Json.str msg) := by
    rw [hobj]
    simp [Json.setIn, Json.getKey?, lookupKey_setKey_self]
  have herrkey : ((addMeta (Json.obj kvs) path env.now ty).setIn "database_error"
      (Json.str msg)).getKey? "error" = (Json.obj kvs).getKey? "error" := by
    rw [hobj]
    simp [Json.setIn, Json.getKey?,
      lookupKey_setKey_ne _ _ _ (by decide : "error" ≠ "database_error"),
      lookupKey_setKey_ne _ _ _ (by decide : "error" ≠ "index_type"),
      lookupKey_setKey_ne _ _ _ (by decide : "error" ≠ "processed_at"),
      lookupKey_setKey_ne _ _ _ (by decide : "error" ≠ "source_path")]
  have hpekey : ((addMeta (Json.obj kvs) path env.now ty).setIn "database_error"
      (Json.str msg)).getKey? "parsing_error" = (Json.obj kvs).getKey? "parsing_error" := by
    rw [hobj]
    simp [Json.setIn, Json.getKey?,
      lookupKey_setKey_ne _ _ _ (by decide : "parsing_error" ≠ "database_error"),
      lookupKey_setKey_ne _ _ _ (by decide : "parsing_error" ≠ "index_type"),
      lookupKey_setKey_ne _ _ _ (by decide : "parsing_error" ≠ "processed_at"),
      lookupKey_setKey_ne _ _ _ (by decide : "parsing_error" ≠ "source_path")]
  refine ⟨?_, ?_, ?_, ?_, ?_, ?_⟩
  · rw [hres]
  · rw [hres]
  · rw [hres]
    exact hdbkey
  · rw [hres]
    exact herrkey
  · rw [hres]
    exact hpekey
  · intro he hp
    rw [hres]
    simp only [isFailure, herrkey, hpekey, he, hp]
    simp

/-- Witness for C10: with the insert failing on a clean parsed object,
the database stays empty and the result is still counted successful. -/
theorem C10_witness :
    (extract_document ⟨none, HttpOutcome.ok "\x7b\"a\": 1\x7d", "T0", some 0⟩
        "img.jpg" "INDEX_1" ⟨[], [], []⟩).2 = ⟨[], [], []⟩
    ∧ isFailure (extract_document ⟨none, HttpOutcome.ok "\x7b\"a\": 1\x7d", "T0", some 0⟩
        "img.jpg" "INDEX_1" ⟨[], [], []⟩).1 = false :=
  ⟨(C10_theorem ⟨none, HttpOutcome.ok "\x7b\"a\": 1\x7d", "T0", some 0⟩ "img.jpg" "INDEX_1"
      "\x7b\"a\": 1\x7d" "database insert failed" ⟨[], [], []⟩ [("a", Json.num "1")]
      rfl rfl rfl rfl).1,
   (C10_theorem ⟨none, HttpOutcome.ok "\x7b\"a\": 1\x7d", "T0", some 0⟩ "img.jpg" "INDEX_1"
      "\x7b\"a\": 1\x7d" "database insert failed" ⟨[], [], []⟩ [("a", Json.num "1")]
      rfl rfl rfl rfl).2.2.2.2.2 rfl rfl⟩
